import Mathlib

/-!
Shallow embedding of the resource-naming, configuration and synthesis core of
the aws-video-transcriber CDK application.

Sources embedded:
* `cdk/lib/utils/constants.ts` — the application prefix and the fixed
  table/bucket name constants.
* `cdk/lib/utils/naming.ts` — the Naming Engine: pure functions composing
  physical names and resource tags.
* `cdk/lib/config/environment-config.ts` — environment profiles, the profile
  lookup `getEnvironmentConfig`, and `isValidEnvironment`.
* `cdk/lib/video-transcriber-stack.ts` — the (placeholder) stack, whose
  synthesis emits exactly three `CfnOutput` records.

Machine strings are Lean `String`s; JavaScript `toLowerCase` is modelled on the
ASCII range, which covers every character the configuration keys use.
-/

/-- From `constants.ts`: `export const RESOURCE_PREFIX = 'prod-aws-captions'`. -/
def RESOURCE_PREFIX : String := "prod-aws-captions"

/-- The keys of `TABLE_NAMES` in `constants.ts` (`VIDEO`, `CAPTION`, `CONFIG`). -/
inductive TableType
  | VIDEO
  | CAPTION
  | CONFIG
deriving DecidableEq

/-- From `constants.ts`: the `TABLE_NAMES` constant map. -/
def TABLE_NAMES : TableType → String
  | .VIDEO => "VideoDynamoDBTable"
  | .CAPTION => "CaptionDynamoDBTable"
  | .CONFIG => "ConfigDynamoDBTable"

/-- The keys of `BUCKET_SUFFIXES` in `constants.ts` (the source key `AUDIO` is
spelt `Audio` here). -/
inductive BucketType
  | VIDEO
  | Audio
  | TRANSCRIBE
  | PUBLIC
deriving DecidableEq

/-- From `constants.ts`: the `BUCKET_SUFFIXES` constant map. -/
def BUCKET_SUFFIXES : BucketType → String
  | .VIDEO => "video"
  | .Audio => "audio"
  | .TRANSCRIBE => "transcribe"
  | .PUBLIC => "public"

/-- From `naming.ts`: `` `${RESOURCE_PREFIX}-${functionName}` ``. -/
def getLambdaFunctionName (functionName : String) : String :=
  RESOURCE_PREFIX ++ "-" ++ functionName

/-- From `naming.ts`: `` `/aws/lambda/${getLambdaFunctionName(functionName)}` ``. -/
def getLambdaLogGroupName (functionName : String) : String :=
  "/aws/lambda/" ++ getLambdaFunctionName functionName

/-- From `naming.ts`:
`` `${RESOURCE_PREFIX}-${accountId}-${region}-${BUCKET_SUFFIXES[bucketType]}` ``. -/
def getS3BucketName (accountId region : String) (bucketType : BucketType) : String :=
  RESOURCE_PREFIX ++ "-" ++ accountId ++ "-" ++ region ++ "-" ++ BUCKET_SUFFIXES bucketType

/-- From `naming.ts`:
`` `${RESOURCE_PREFIX}-${environment}-${TABLE_NAMES[tableType]}` ``. -/
def getDynamoDBTableName (environment : String) (tableType : TableType) : String :=
  RESOURCE_PREFIX ++ "-" ++ environment ++ "-" ++ TABLE_NAMES tableType

/-- From `naming.ts`: `` `${RESOURCE_PREFIX}-${roleName}` ``. -/
def getIAMRoleName (roleName : String) : String :=
  RESOURCE_PREFIX ++ "-" ++ roleName

/-- From `naming.ts`: `` `${RESOURCE_PREFIX}-${environment}-api` ``. -/
def getAPIGatewayName (environment : String) : String :=
  RESOURCE_PREFIX ++ "-" ++ environment ++ "-api"

/-- From `naming.ts`: `` `Video Transcriber CDN - ${environment}` ``. -/
def getCloudFrontDescription (environment : String) : String :=
  "Video Transcriber CDN - " ++ environment

/-- JavaScript object-spread semantics `{...base, ...extra}` for string-keyed
records: keys of `base` come first (their value replaced by `extra`'s value on
collision), then the keys of `extra` that are not in `base`. -/
def objSpread (base extra : List (String × String)) : List (String × String) :=
  (base.map fun p =>
    match extra.lookup p.1 with
    | some v => (p.1, v)
    | none => p)
  ++ extra.filter fun p => (base.lookup p.1).isNone

/-- From `naming.ts`: `getResourceTags` returns
`{ Application: 'VideoTranscriber', Environment: environment, ManagedBy: 'CDK',
...additionalTags }`. -/
def getResourceTags (environment : String)
    (additionalTags : List (String × String)) : List (String × String) :=
  objSpread
    [("Application", "VideoTranscriber"), ("Environment", environment), ("ManagedBy", "CDK")]
    additionalTags

/-- From `environment-config.ts`: the `EnvironmentConfig` interface. CDK enum
values (`RetentionDays`, `Duration`) are embedded as their numeric day/minute
counts; the TypeScript string-literal unions are embedded as strings. -/
structure EnvironmentConfig where
  name : String
  transcribeLanguage : String
  logRetentionDays : Nat
  logLevel : String
  enableXRay : Bool
  dynamoDBBillingMode : String
  s3GlacierTransitionDays : Option Nat
  s3ExpirationDays : Option Nat
  apiThrottleRateLimit : Nat
  apiThrottleBurstLimit : Nat
  enableAPICache : Bool
  apiCacheTTLMinutes : Option Nat
  cloudFrontPriceClass : String
  enableCloudFrontLogging : Bool
  removalPolicy : String
deriving DecidableEq

/-- From `environment-config.ts`: `devConfig`. -/
def devConfig : EnvironmentConfig where
  name := "dev"
  transcribeLanguage := "en-US"
  logRetentionDays := 3
  logLevel := "DEBUG"
  enableXRay := false
  dynamoDBBillingMode := "PAY_PER_REQUEST"
  s3GlacierTransitionDays := none
  s3ExpirationDays := some 7
  apiThrottleRateLimit := 100
  apiThrottleBurstLimit := 200
  enableAPICache := false
  apiCacheTTLMinutes := none
  cloudFrontPriceClass := "PriceClass_100"
  enableCloudFrontLogging := false
  removalPolicy := "DESTROY"

/-- From `environment-config.ts`: `stagingConfig`. -/
def stagingConfig : EnvironmentConfig where
  name := "staging"
  transcribeLanguage := "en-US"
  logRetentionDays := 7
  logLevel := "INFO"
  enableXRay := true
  dynamoDBBillingMode := "PAY_PER_REQUEST"
  s3GlacierTransitionDays := some 30
  s3ExpirationDays := some 90
  apiThrottleRateLimit := 500
  apiThrottleBurstLimit := 1000
  enableAPICache := true
  apiCacheTTLMinutes := some 5
  cloudFrontPriceClass := "PriceClass_100"
  enableCloudFrontLogging := true
  removalPolicy := "RETAIN"

/-- From `environment-config.ts`: `prodConfig`. -/
def prodConfig : EnvironmentConfig where
  name := "prod"
  transcribeLanguage := "en-US"
  logRetentionDays := 30
  logLevel := "WARN"
  enableXRay := true
  dynamoDBBillingMode := "PAY_PER_REQUEST"
  s3GlacierTransitionDays := some 90
  s3ExpirationDays := some 365
  apiThrottleRateLimit := 1000
  apiThrottleBurstLimit := 2000
  enableAPICache := true
  apiCacheTTLMinutes := some 10
  cloudFrontPriceClass := "PriceClass_200"
  enableCloudFrontLogging := true
  removalPolicy := "RETAIN"

/-- From `environment-config.ts`: the `environments` record, as a key/value
association (its own keys only — exactly `dev`, `staging`, `prod`). -/
def environments : List (String × EnvironmentConfig) :=
  [("dev", devConfig), ("staging", stagingConfig), ("prod", prodConfig)]

/-- JavaScript `String.prototype.toLowerCase`, on the ASCII range (which covers
the configuration keys): lowercases each character via `Char.toLower`. -/
def toLowerCase (s : String) : String :=
  String.mk (s.data.map Char.toLower)

/-- From `environment-config.ts`: `getEnvironmentConfig` looks up
`environments[environmentName.toLowerCase()]` and throws on a missing entry;
the thrown `Error` is embedded as `Except.error` carrying the message string. -/
def getEnvironmentConfig (environmentName : String) : Except String EnvironmentConfig :=
  match environments.lookup (toLowerCase environmentName) with
  | some config => .ok config
  | none =>
    .error ("Unknown environment: " ++ environmentName
      ++ ". Valid environments are: dev, staging, prod")

/-- From `environment-config.ts`: `isValidEnvironment` tests
`environmentName.toLowerCase() in environments`. -/
def isValidEnvironment (environmentName : String) : Bool :=
  (environments.lookup (toLowerCase environmentName)).isSome

/-- From `video-transcriber-stack.ts`: `VideoTranscriberStackProps`. -/
structure VideoTranscriberStackProps where
  transcribeLanguage : String
  environment : String
  retentionDays : Option Nat
deriving DecidableEq

/-- One `CfnOutput` record as the stack emits it. -/
structure CfnOutput where
  key : String
  value : String
  description : String
deriving DecidableEq

/-- From `video-transcriber-stack.ts`: the `VideoTranscriberStack` constructor
creates no resource constructs (the construct sections are a TODO placeholder)
and emits exactly three `CfnOutput`s: `StackName`, `Region`,
`TranscribeLanguage`. The CDK-supplied `this.stackName` and `this.region` are
the `stackName` and `region` parameters. -/
def synthStackOutputs (stackName region : String)
    (props : VideoTranscriberStackProps) : List CfnOutput :=
  [{ key := "StackName", value := stackName, description := "Stack name" },
   { key := "Region", value := region, description := "AWS Region" },
   { key := "TranscribeLanguage", value := props.transcribeLanguage,
     description := "Transcribe language setting" }]

/-- A string begins with the given prefix string. -/
def beginsWith (p s : String) : Prop :=
  ∃ r, s = p ++ r

/-- Modelled from the spec: `FunctionSpec` (§3) — the repository declares this
record only in its design document; no construct code under `cdk/lib/constructs`
exists. Logical name, entry point, memory size, timeout, role reference. -/
structure FunctionSpec where
  name : String
  handler : String
  memorySize : Nat
  timeoutSeconds : Nat
  role : String
deriving DecidableEq

/-- Modelled from the spec: `RoleSpec` (§3), reduced to the role kind the
referential-integrity pass resolves against. -/
structure RoleSpec where
  kind : String
deriving DecidableEq

/-- Modelled from the spec: the typed `ValidationError` of §7, carrying the
offending record's logical name and a message. -/
structure ValidationError where
  offendingRecord : String
  message : String
deriving DecidableEq

/-- One node of the resource graph: kind, physical name, dependencies. -/
structure GraphNode where
  kind : String
  physicalName : String
  dependsOn : List String
deriving DecidableEq

/-- Modelled from the spec: the `ResourceGraph` of §3. -/
structure ResourceGraph where
  nodes : List GraphNode
deriving DecidableEq

/-- Modelled from the spec (§4.2 referential validation): find the first
`FunctionSpec` whose `role` does not resolve to a declared `RoleSpec` kind. -/
def findUnresolvedRole (roles : List RoleSpec) : List FunctionSpec → Option FunctionSpec
  | [] => none
  | f :: rest =>
    if roles.any fun r => r.kind == f.role then findUnresolvedRole roles rest
    else some f

/-- Modelled from the spec: the fail-fast build of §4.2/§8 — the repository's
stack is an empty placeholder and the validating builder is not implemented
under `src/`. Validation runs before any node is constructed; on an unresolved
role reference the build aborts with a `ValidationError` naming the offending
record, and no graph (partial or otherwise) is produced. Otherwise Role nodes
then Compute nodes are built, physical names coming from the Naming Engine. -/
def buildGraph (roles : List RoleSpec) (fns : List FunctionSpec) :
    Except ValidationError ResourceGraph :=
  match findUnresolvedRole roles fns with
  | some f =>
    .error { offendingRecord := f.name,
             message := "FunctionSpec role does not resolve to a declared RoleSpec kind: "
               ++ f.role }
  | none =>
    .ok { nodes :=
      (roles.map fun r =>
        { kind := "Role", physicalName := getIAMRoleName r.kind, dependsOn := [] })
      ++ fns.map fun f =>
        { kind := "Compute", physicalName := getLambdaFunctionName f.name,
          dependsOn := [getIAMRoleName f.role] } }

/-! ## Helper lemmas -/

/-- Splitting at a separator character that occurs in neither left part:
the left parts and the right parts agree. -/
theorem hyphenSplit {xs ys vs : List Char} :
    ∀ {us : List Char}, '-' ∉ xs → '-' ∉ us →
      xs ++ '-' :: ys = us ++ '-' :: vs → xs = us ∧ ys = vs := by
  induction xs with
  | nil =>
    intro us _ hu h
    cases us with
    | nil => simpa using h
    | cons u us' =>
      rw [List.nil_append, List.cons_append] at h
      injection h with h1 _
      subst h1
      simp at hu
  | cons x xs' ih =>
    intro us hx hu h
    cases us with
    | nil =>
      rw [List.nil_append, List.cons_append] at h
      injection h with h1 _
      subst h1
      simp at hx
    | cons u us' =>
      rw [List.cons_append, List.cons_append] at h
      injection h with h1 h2
      subst h1
      have hx' : '-' ∉ xs' := fun m => hx (List.mem_cons_of_mem _ m)
      have hu' : '-' ∉ us' := fun m => hu (List.mem_cons_of_mem _ m)
      obtain ⟨e1, e2⟩ := ih hx' hu' h2
      exact ⟨by rw [e1], e2⟩

/-- `beginsWith` survives appending on the right. -/
theorem beginsWith_extend {p s : String} (h : beginsWith p s) (t : String) :
    beginsWith p (s ++ t) := by
  obtain ⟨r, rfl⟩ := h
  exact ⟨r ++ t, String.append_assoc p r t⟩

/-- For uppercase code points, `Char.ofNat` of the shifted value round-trips. -/
theorem ofNat_toNat_shift (n : Nat) (h1 : 65 ≤ n) (h2 : n ≤ 90) :
    (Char.ofNat (n + 32)).toNat = n + 32 := by
  interval_cases n <;> decide

/-- `Char.toLower` is idempotent. -/
theorem charToLower_idem (c : Char) : c.toLower.toLower = c.toLower := by
  by_cases h : 65 ≤ c.toNat ∧ c.toNat ≤ 90
  · simp only [Char.toLower, ge_iff_le, if_pos h, ofNat_toNat_shift c.toNat h.1 h.2]
    rw [if_neg (by omega)]
  · simp only [Char.toLower, ge_iff_le, if_neg h]

/-- `toLowerCase` is idempotent. -/
theorem toLowerCase_idem (s : String) : toLowerCase (toLowerCase s) = toLowerCase s := by
  unfold toLowerCase
  simp only [List.map_map]
  exact congrArg String.mk (List.map_congr_left fun c _ => charToLower_idem c)

/-! ## Claim theorems -/

/-- C1 (counterexample): the claim that distinct scopes always give distinct
physical names fails for buckets — the scope components are joined with `-`
but may themselves contain `-`, so the two distinct (accountId, region) scopes
`("a-b", "c")` and `("a", "b-c")` compose to the same bucket name. -/
theorem C1_scope_collision :
    getS3BucketName "a-b" "c" BucketType.VIDEO = getS3BucketName "a" "b-c" BucketType.VIDEO
      ∧ ("a-b", "c") ≠ (("a" : String), ("b-c" : String)) := by
  exact ⟨by decide, by decide⟩

/-- C1 (amended): scope-injectivity of the Naming Engine, restricted to where
it actually holds. For a fixed logical table name, `getDynamoDBTableName` is
injective in the environment; `getAPIGatewayName` is injective in the
environment; and `getS3BucketName` is injective in the (accountId, region)
scope pair provided the account ID contains no hyphen (real AWS account IDs
are digit strings). Without that restriction bucket names can collide across
distinct scopes, and `getLambdaFunctionName`/`getIAMRoleName` take no
environment or scope argument at all, so their output cannot vary with the
scope. -/
theorem C1_amended_scope_injective :
    (∀ (t : TableType) (e1 e2 : String),
        getDynamoDBTableName e1 t = getDynamoDBTableName e2 t → e1 = e2)
    ∧ (∀ e1 e2 : String, getAPIGatewayName e1 = getAPIGatewayName e2 → e1 = e2)
    ∧ (∀ (t : BucketType) (a1 r1 a2 r2 : String), '-' ∉ a1.data → '-' ∉ a2.data →
        getS3BucketName a1 r1 t = getS3BucketName a2 r2 t → (a1, r1) = (a2, r2)) := by
  refine ⟨?_, ?_, ?_⟩
  · intro t e1 e2 h
    apply String.ext
    have hd := congrArg String.data h
    simp only [getDynamoDBTableName, String.data_append, List.append_assoc] at hd
    exact List.append_cancel_right (List.append_cancel_left (List.append_cancel_left hd))
  · intro e1 e2 h
    apply String.ext
    have hd := congrArg String.data h
    simp only [getAPIGatewayName, String.data_append, List.append_assoc] at hd
    exact List.append_cancel_right (List.append_cancel_left (List.append_cancel_left hd))
  · intro t a1 r1 a2 r2 hx hu h
    have hd := congrArg String.data h
    simp only [getS3BucketName, String.data_append, List.append_assoc,
      show ("-" : String).data = ['-'] from rfl, List.cons_append, List.nil_append] at hd
    have hd1 := List.append_cancel_left hd
    injection hd1 with _ hd2
    obtain ⟨ha, hrest⟩ := hyphenSplit hx hu hd2
    have hr := List.append_cancel_right hrest
    rw [Prod.mk.injEq]
    exact ⟨String.ext ha, String.ext hr⟩

/-- C1 (witness): the amended injectivity applied at concrete scopes. -/
theorem C1_amended_scope_injective_witness :
    (("dev" : String) = "dev")
    ∧ ((("123456789012" : String), ("us-east-1" : String)) = ("123456789012", "us-east-1")) :=
  ⟨C1_amended_scope_injective.1 TableType.VIDEO "dev" "dev" rfl,
   C1_amended_scope_injective.2.2 BucketType.VIDEO "123456789012" "us-east-1"
     "123456789012" "us-east-1" (by decide) (by decide) rfl⟩

/-- C2 (counterexample): the Naming Engine never rejects an over-limit name.
With a 60-character account ID the composed S3 bucket name is 94 characters,
above S3's 63-character ceiling, yet `getS3BucketName` returns the full
composed string — no naming error is raised (the function's type is total). -/
theorem C2_overlong_name_returned :
    63 < (getS3BucketName "123456789012345678901234567890123456789012345678901234567890"
        "us-east-1" BucketType.VIDEO).length
    ∧ getS3BucketName "123456789012345678901234567890123456789012345678901234567890"
        "us-east-1" BucketType.VIDEO
      = "prod-aws-captions-123456789012345678901234567890123456789012345678901234567890-us-east-1-video" := by
  exact ⟨by decide, by decide⟩

/-- C2 (amended): the naming functions perform no length check and never
truncate: for every input, the returned name's length is exactly the full
composed length — prefix, components and the joining hyphens — even when that
exceeds the resource kind's limit. No error value exists in their signatures. -/
theorem C2_amended_no_truncation :
    ∀ (a r : String) (bt : BucketType) (e : String) (tt : TableType),
      (getS3BucketName a r bt).length
        = RESOURCE_PREFIX.length + a.length + r.length + ( BUCKET_SUFFIXES bt).length + 3
      ∧ (getDynamoDBTableName e tt).length
        = RESOURCE_PREFIX.length + e.length + (TABLE_NAMES tt).length + 2 := by
  intro a r bt e tt
  constructor
  · simp only [getS3BucketName, String.length_append,
      show ("-" : String).length = 1 from rfl]
    omega
  · simp only [getDynamoDBTableName, String.length_append,
      show ("-" : String).length = 1 from rfl]
    omega

/-- The first `FunctionSpec` whose role reference resolves against no declared
role kind is found by the validation scan whenever one exists. -/
theorem findUnresolvedRole_spec (roles : List RoleSpec) (fns : List FunctionSpec)
    (h : ∃ f ∈ fns, ∀ r ∈ roles, r.kind ≠ f.role) :
    ∃ f, findUnresolvedRole roles fns = some f ∧ f ∈ fns ∧ ∀ r ∈ roles, r.kind ≠ f.role := by
  induction fns with
  | nil => simp at h
  | cons g rest ih =>
    by_cases hg : roles.any fun r => r.kind == g.role
    · have h' : ∃ f ∈ rest, ∀ r ∈ roles, r.kind ≠ f.role := by
        obtain ⟨f, hf, hprop⟩ := h
        cases List.mem_cons.mp hf with
        | inl e =>
          subst e
          rw [List.any_eq_true] at hg
          obtain ⟨r, hr, hrk⟩ := hg
          exact absurd (beq_iff_eq.mp hrk) (hprop r hr)
        | inr m => exact ⟨f, m, hprop⟩
      obtain ⟨f, e, m, p⟩ := ih h'
      exact ⟨f, by simpa [findUnresolvedRole, hg] using e, List.mem_cons_of_mem _ m, p⟩
    · refine ⟨g, by simp [findUnresolvedRole, hg], List.mem_cons_self g rest, ?_⟩
      intro r hr eq
      exact hg (List.any_eq_true.mpr ⟨r, hr, beq_iff_eq.mpr eq⟩)

/-- C3: for every configuration set containing a `FunctionSpec` whose role
reference resolves to no declared `RoleSpec` kind, the build aborts with a
typed `ValidationError` identifying the offending record; the result carries
no graph, partial or otherwise (validation runs before node construction). -/
theorem C3_unresolved_role_aborts :
    ∀ (roles : List RoleSpec) (fns : List FunctionSpec),
      (∃ f ∈ fns, ∀ r ∈ roles, r.kind ≠ f.role) →
      ∃ e, buildGraph roles fns = Except.error e
        ∧ ∃ f ∈ fns, e.offendingRecord = f.name ∧ ∀ r ∈ roles, r.kind ≠ f.role := by
  intro roles fns h
  obtain ⟨f, hfind, hmem, hprop⟩ := findUnresolvedRole_spec roles fns h
  refine ⟨{ offendingRecord := f.name,
            message := "FunctionSpec role does not resolve to a declared RoleSpec kind: "
              ++ f.role },
    ?_, f, hmem, rfl, hprop⟩
  unfold buildGraph
  rw [hfind]

/-- C3 (witness): the fail-fast abort at the spec's concrete scenario — one
`extractaudio` FunctionSpec referencing role kind `mediaConvert` while only a
`transcribe` RoleSpec is declared. -/
theorem C3_unresolved_role_aborts_witness :
    ∃ e, buildGraph [RoleSpec.mk "transcribe"]
        [FunctionSpec.mk "extractaudio" "extractaudio.handler" 2048 600 "mediaConvert"]
        = Except.error e
      ∧ ∃ f ∈ [FunctionSpec.mk "extractaudio" "extractaudio.handler" 2048 600 "mediaConvert"],
          e.offendingRecord = f.name ∧ ∀ r ∈ [RoleSpec.mk "transcribe"], r.kind ≠ f.role :=
  C3_unresolved_role_aborts _ _ (by decide)

/-- C4: synthesis is deterministic — the stack's output document is a pure
function of the stack name, region and props, so two runs on equal inputs
yield identical documents; and the comparable portion carries the fixed key
set `StackName`, `Region`, `TranscribeLanguage` with no volatile (timestamp)
field present. -/
theorem C4_synthesis_deterministic :
    ∀ (sn1 rg1 : String) (p1 : VideoTranscriberStackProps)
      (sn2 rg2 : String) (p2 : VideoTranscriberStackProps),
      sn1 = sn2 → rg1 = rg2 → p1 = p2 →
      synthStackOutputs sn1 rg1 p1 = synthStackOutputs sn2 rg2 p2
      ∧ (synthStackOutputs sn1 rg1 p1).map CfnOutput.key
        = ["StackName", "Region", "TranscribeLanguage"] := by
  intro sn1 rg1 p1 sn2 rg2 p2 h1 h2 h3
  subst h1; subst h2; subst h3
  exact ⟨rfl, rfl⟩

/-- C4 (witness): two identical synthesis runs at a concrete input. -/
theorem C4_synthesis_deterministic_witness :
    synthStackOutputs "VideoTranscriberStack" "us-east-1"
        (VideoTranscriberStackProps.mk "en-US" "dev" none)
      = synthStackOutputs "VideoTranscriberStack" "us-east-1"
        (VideoTranscriberStackProps.mk "en-US" "dev" none)
    ∧ (synthStackOutputs "VideoTranscriberStack" "us-east-1"
        (VideoTranscriberStackProps.mk "en-US" "dev" none)).map CfnOutput.key
      = ["StackName", "Region", "TranscribeLanguage"] :=
  C4_synthesis_deterministic _ _ _ _ _ _ rfl rfl rfl

/-- C5 (counterexample): the outputs manifest of the stack in the repository
does not have the claimed nine-key set — at a concrete synthesis its keys are
exactly `StackName`, `Region`, `TranscribeLanguage`, and e.g. `ApiUrl` and
`VideoBucketName` are absent. -/
theorem C5_manifest_keys_counterexample :
    (synthStackOutputs "VideoTranscriberStack" "us-east-1"
        (VideoTranscriberStackProps.mk "zh-CN" "dev" none)).map CfnOutput.key
      = ["StackName", "Region", "TranscribeLanguage"]
    ∧ "ApiUrl" ∉ (synthStackOutputs "VideoTranscriberStack" "us-east-1"
        (VideoTranscriberStackProps.mk "zh-CN" "dev" none)).map CfnOutput.key
    ∧ "VideoBucketName" ∉ (synthStackOutputs "VideoTranscriberStack" "us-east-1"
        (VideoTranscriberStackProps.mk "zh-CN" "dev" none)).map CfnOutput.key := by
  exact ⟨rfl, by decide, by decide⟩

/-- C5 (amended): for every successful synthesis, the outputs manifest has
exactly the key set `{StackName, Region, TranscribeLanguage}` — no other keys
and none missing (the placeholder stack exports no resource names or URLs). -/
theorem C5_amended_manifest_keys :
    ∀ (sn rg : String) (p : VideoTranscriberStackProps),
      (synthStackOutputs sn rg p).map CfnOutput.key
        = ["StackName", "Region", "TranscribeLanguage"] := by
  intro sn rg p
  rfl

/-- C6: selecting an environment profile by a name outside the closed set
`{dev, staging, prod}` (after lowercasing, as the code normalizes) is a fatal
configuration error — `getEnvironmentConfig` throws; for every known name it
returns that environment's profile. -/
theorem C6_unknown_environment_fatal :
    ∀ s : String,
      (toLowerCase s ∉ (["dev", "staging", "prod"] : List String) →
        ∃ m, getEnvironmentConfig s = Except.error m)
      ∧ (toLowerCase s = "dev" → getEnvironmentConfig s = Except.ok devConfig)
      ∧ (toLowerCase s = "staging" → getEnvironmentConfig s = Except.ok stagingConfig)
      ∧ (toLowerCase s = "prod" → getEnvironmentConfig s = Except.ok prodConfig) := by
  intro s
  refine ⟨?_, ?_, ?_, ?_⟩
  · intro hmem
    simp only [List.mem_cons, List.not_mem_nil, or_false, not_or] at hmem
    obtain ⟨h1, h2, h3⟩ := hmem
    have b1 : (toLowerCase s == "dev") = false := beq_eq_false_iff_ne.mpr h1
    have b2 : (toLowerCase s == "staging") = false := beq_eq_false_iff_ne.mpr h2
    have b3 : (toLowerCase s == "prod") = false := beq_eq_false_iff_ne.mpr h3
    exact ⟨"Unknown environment: " ++ s ++ ". Valid environments are: dev, staging, prod",
      by simp [getEnvironmentConfig, environments, List.lookup, b1, b2, b3]⟩
  · intro h
    simp [getEnvironmentConfig, environments, List.lookup, h]
  · intro h
    simp [getEnvironmentConfig, environments, List.lookup, h]
  · intro h
    simp [getEnvironmentConfig, environments, List.lookup, h]

/-- C6 (witness): the unknown name `qa` throws; the known names `DEV`,
`staging`, `PrOd` (in any letter case) return their profiles. -/
theorem C6_unknown_environment_fatal_witness :
    (∃ m, getEnvironmentConfig "qa" = Except.error m)
    ∧ getEnvironmentConfig "DEV" = Except.ok devConfig
    ∧ getEnvironmentConfig "staging" = Except.ok stagingConfig
    ∧ getEnvironmentConfig "PrOd" = Except.ok prodConfig :=
  ⟨(C6_unknown_environment_fatal "qa").1 (by decide),
   (C6_unknown_environment_fatal "DEV").2.1 (by decide),
   (C6_unknown_environment_fatal "staging").2.2.1 (by decide),
   (C6_unknown_environment_fatal "PrOd").2.2.2 (by decide)⟩

/-- C7: `getResourceTags` always contains the three standard keys
`Application`, `Environment`, `ManagedBy`; on a key collision between the
standard tags and the caller-supplied overrides, the override value wins; and
with no overrides the result is exactly the three standard key/value pairs. -/
theorem C7_resource_tags :
    ∀ (env : String) (adds : List (String × String)),
      ((getResourceTags env adds).lookup "Application").isSome
      ∧ ((getResourceTags env adds).lookup "Environment").isSome
      ∧ ((getResourceTags env adds).lookup "ManagedBy").isSome
      ∧ (∀ k v, k ∈ (["Application", "Environment", "ManagedBy"] : List String) →
          adds.lookup k = some v → (getResourceTags env adds).lookup k = some v)
      ∧ getResourceTags env []
        = [("Application", "VideoTranscriber"), ("Environment", env), ("ManagedBy", "CDK")] := by
  intro env adds
  refine ⟨?_, ?_, ?_, ?_, rfl⟩
  · cases h : adds.lookup "Application" <;>
      simp [getResourceTags, objSpread, List.lookup, h]
  · cases h : adds.lookup "Environment" <;>
      cases h2 : adds.lookup "Application" <;>
        simp [getResourceTags, objSpread, List.lookup, h, h2]
  · cases h : adds.lookup "ManagedBy" <;>
      cases h2 : adds.lookup "Application" <;>
        cases h3 : adds.lookup "Environment" <;>
          simp [getResourceTags, objSpread, List.lookup, h, h2, h3]
  · intro k v hk hv
    simp only [List.mem_cons, List.not_mem_nil, or_false] at hk
    rcases hk with rfl | rfl | rfl
    · simp [getResourceTags, objSpread, List.lookup, hv]
    · cases h2 : adds.lookup "Application" <;>
        simp [getResourceTags, objSpread, List.lookup, hv, h2]
    · cases h2 : adds.lookup "Application" <;>
        cases h3 : adds.lookup "Environment" <;>
          simp [getResourceTags, objSpread, List.lookup, hv, h2, h3]

/-- C7 (witness): the tag contract at a concrete override map in which
`ManagedBy` collides (the override `Hand` wins) and at the empty override
map (exactly the three standard pairs). -/
theorem C7_resource_tags_witness :
    ((getResourceTags "dev" [("ManagedBy", "Hand")]).lookup "Application").isSome
    ∧ (getResourceTags "dev" [("ManagedBy", "Hand")]).lookup "ManagedBy" = some "Hand"
    ∧ getResourceTags "dev" []
      = [("Application", "VideoTranscriber"), ("Environment", "dev"), ("ManagedBy", "CDK")] :=
  ⟨(C7_resource_tags "dev" [("ManagedBy", "Hand")]).1,
   (C7_resource_tags "dev" [("ManagedBy", "Hand")]).2.2.2.1 "ManagedBy" "Hand"
     (by decide) (by decide),
   (C7_resource_tags "dev" []).2.2.2.2⟩

/-- C8 (counterexample): not every physical identifier begins with the
application prefix — the Lambda log-group name begins with the service path
`/aws/lambda/`, not with `prod-aws-captions`. -/
theorem C8_log_group_without_app_prefix :
    (¬ beginsWith RESOURCE_PREFIX (getLambdaLogGroupName "extractaudio"))
    ∧ getLambdaLogGroupName "extractaudio" = "/aws/lambda/prod-aws-captions-extractaudio" := by
  constructor
  · rintro ⟨r, hr⟩
    have hd := congrArg String.data hr
    rw [String.data_append] at hd
    have h1 : (getLambdaLogGroupName "extractaudio").data
        = '/' :: "aws/lambda/prod-aws-captions-extractaudio".data := rfl
    have h2 : RESOURCE_PREFIX.data = 'p' :: "rod-aws-captions".data := rfl
    rw [h1, h2, List.cons_append] at hd
    injection hd with hc _
    exact absurd hc (by decide)
  · rfl

/-- C8 (amended): every physical identifier except the log-group names begins
with the application prefix (Lambda function names, IAM role names, bucket
names, table names, API gateway names); a log-group name is the
service-mandated path `/aws/lambda/` followed by the prefixed function name,
so the prefix appears after that path rather than at the start. -/
theorem C8_amended_app_prefix :
    (∀ n, beginsWith RESOURCE_PREFIX (getLambdaFunctionName n))
    ∧ (∀ n, beginsWith RESOURCE_PREFIX (getIAMRoleName n))
    ∧ (∀ a r bt, beginsWith RESOURCE_PREFIX (getS3BucketName a r bt))
    ∧ (∀ e t, beginsWith RESOURCE_PREFIX (getDynamoDBTableName e t))
    ∧ (∀ e, beginsWith RESOURCE_PREFIX (getAPIGatewayName e))
    ∧ (∀ n, getLambdaLogGroupName n = "/aws/lambda/" ++ getLambdaFunctionName n) := by
  refine ⟨?_, ?_, ?_, ?_, ?_, fun n => rfl⟩
  · intro n
    exact beginsWith_extend ⟨"-", rfl⟩ n
  · intro n
    exact beginsWith_extend ⟨"-", rfl⟩ n
  · intro a r bt
    exact beginsWith_extend (beginsWith_extend (beginsWith_extend
      (beginsWith_extend (beginsWith_extend ⟨"-", rfl⟩ a) "-") r) "-") ( BUCKET_SUFFIXES bt)
  · intro e t
    exact beginsWith_extend (beginsWith_extend (beginsWith_extend ⟨"-", rfl⟩ e) "-")
      (TABLE_NAMES t)
  · intro e
    exact beginsWith_extend (beginsWith_extend ⟨"-", rfl⟩ e) "-api"

/-- C9: environment-name validation and profile lookup agree and are
case-insensitive — `isValidEnvironment s` is true exactly when
`getEnvironmentConfig s` returns a profile, validity of `s` equals validity of
its lowercase form, and `s` and its lowercase form select the same profile. -/
theorem C9_validation_lookup_agree :
    ∀ s : String,
      (isValidEnvironment s = true ↔ ∃ c, getEnvironmentConfig s = Except.ok c)
      ∧ isValidEnvironment s = isValidEnvironment (toLowerCase s)
      ∧ (∀ c, getEnvironmentConfig s = Except.ok c ↔
          getEnvironmentConfig (toLowerCase s) = Except.ok c) := by
  intro s
  refine ⟨⟨?_, ?_⟩, ?_, ?_⟩
  · intro h
    unfold isValidEnvironment at h
    cases hl : environments.lookup (toLowerCase s) with
    | none => rw [hl] at h; simp at h
    | some c => exact ⟨c, by unfold getEnvironmentConfig; rw [hl]⟩
  · rintro ⟨c, hc⟩
    unfold getEnvironmentConfig at hc
    unfold isValidEnvironment
    cases hl : environments.lookup (toLowerCase s) with
    | none => rw [hl] at hc; exact Except.noConfusion hc
    | some c' => rfl
  · unfold isValidEnvironment
    rw [toLowerCase_idem]
  · intro c
    unfold getEnvironmentConfig
    rw [toLowerCase_idem]
    cases environments.lookup (toLowerCase s) with
    | some c' => rfl
    | none => simp

/-- C9 (witness): agreement and case-insensitivity at the concrete inputs
`DEV` (valid, selects the dev profile like `dev` does) — instantiating the
theorem at `"DEV"`. -/
theorem C9_validation_lookup_agree_witness :
    (isValidEnvironment "DEV" = true ↔ ∃ c, getEnvironmentConfig "DEV" = Except.ok c)
    ∧ isValidEnvironment "DEV" = isValidEnvironment (toLowerCase "DEV")
    ∧ (∀ c, getEnvironmentConfig "DEV" = Except.ok c ↔
        getEnvironmentConfig (toLowerCase "DEV") = Except.ok c) :=
  C9_validation_lookup_agree "DEV"

/-- C10: the application prefix embedded in every physical name is the literal
`prod-aws-captions` and does not vary with the environment: every
`getLambdaFunctionName n` is `prod-aws-captions-` ++ `n` (the function takes
no environment argument), and the table and bucket names composed for any
environment — dev and staging included — begin with `prod-`. -/
theorem C10_prefix_is_prod_constant :
    RESOURCE_PREFIX = "prod-aws-captions"
    ∧ (∀ n, getLambdaFunctionName n = "prod-aws-captions-" ++ n)
    ∧ (∀ e t, getDynamoDBTableName e t
        = (("prod-aws-captions-" ++ e) ++ "-") ++ TABLE_NAMES t)
    ∧ (∀ e t, beginsWith "prod-" (getDynamoDBTableName e t))
    ∧ (∀ a r bt, beginsWith "prod-" (getS3BucketName a r bt)) := by
  refine ⟨rfl, ?_, ?_, ?_, ?_⟩
  · intro n
    show ( RESOURCE_PREFIX ++ "-") ++ n = "prod-aws-captions-" ++ n
    rw [show RESOURCE_PREFIX ++ "-" = "prod-aws-captions-" from rfl]
  · intro e t
    show ((( RESOURCE_PREFIX ++ "-") ++ e) ++ "-") ++ TABLE_NAMES t
      = (("prod-aws-captions-" ++ e) ++ "-") ++ TABLE_NAMES t
    rw [show RESOURCE_PREFIX ++ "-" = "prod-aws-captions-" from rfl]
  · intro e t
    exact beginsWith_extend (beginsWith_extend (beginsWith_extend
      ⟨"aws-captions-", rfl⟩ e) "-") (TABLE_NAMES t)
  · intro a r bt
    exact beginsWith_extend (beginsWith_extend (beginsWith_extend (beginsWith_extend
      (beginsWith_extend ⟨"aws-captions-", rfl⟩ a) "-") r) "-") ( BUCKET_SUFFIXES bt)
